import Mathlib

/-!
Verification of the Haven risk-gated consent subsystem
(`src/haven/consent/manager.py`), embedded shallowly: the Python classes
become Lean structures, the registry dict becomes an association list with
Python-dict insertion semantics, and the non-mutating methods are embedded
as explicit state-passing functions returning their read value together
with the (unchanged) manager state.  The confirmation callback becomes an
`Option (String → String → Bool)` field, and `request_consent` additionally
returns the trace of callback invocations (argument pairs passed to the
channel), so that "invokes the channel exactly once / zero times" is a
statement about the returned trace.
-/

namespace Haven

/-- Risk levels for actions (`ActionRisk` enum in the source). -/
inductive ActionRisk where
  | safe
  | low
  | medium
  | high
  | critical
deriving DecidableEq, Repr, BEq

/-- Represents an action that may require consent (`Action` dataclass). -/
structure Action where
  name : String
  description : String
  risk_level : ActionRisk
  warning_ar : String
  warning_en : String
deriving DecidableEq, Repr

/-- Get warning in specified language (`Action.get_warning`):
`return self.warning_ar if language == "ar" else self.warning_en`. -/
def Action.get_warning (a : Action) (language : String) : String :=
  if language = "ar" then a.warning_ar else a.warning_en

/-- The registry: a Python dict from action name to `Action`, embedded as an
association list in insertion order. -/
abbrev Dict := List (String × Action)

/-- Python `dict.get(key)`: first (unique) binding of the key, if any. -/
def dictGet : Dict → String → Option Action
  | [], _ => none
  | (k, v) :: t, key => if k = key then some v else dictGet t key

/-- Python `d[key] = v`: replace in place if the key is present (keeping its
position), otherwise append at the end. -/
def dictSet : Dict → String → Action → Dict
  | [], key, v => [(key, v)]
  | (k, w) :: t, key, v =>
      if k = key then (key, v) :: t else (k, w) :: dictSet t key v

/-- Seed action `github_delete_repo` from `ConsentManager.ACTIONS`. -/
def github_delete_repo : Action where
  name := "github_delete_repo"
  description := "Delete a GitHub repository"
  risk_level := ActionRisk.critical
  warning_ar := "⚠️ تحذير: هذا الإجراء سيحذف المستودع بشكل دائم. لا يمكن التراجع عن هذا الإجراء."
  warning_en := "⚠️ Warning: This will permanently delete the repository. This action cannot be undone."

/-- Seed action `github_force_push` from `ConsentManager.ACTIONS`. -/
def github_force_push : Action where
  name := "github_force_push"
  description := "Force push to GitHub repository"
  risk_level := ActionRisk.high
  warning_ar := "⚠️ تنبيه: الدفع القسري قد يحذف تاريخ الكود. يُنصح بأخذ نسخة احتياطية أولاً."
  warning_en := "⚠️ Notice: Force pushing may delete code history. Consider backing up first."

/-- Seed action `github_make_public` from `ConsentManager.ACTIONS`. -/
def github_make_public : Action where
  name := "github_make_public"
  description := "Make repository public"
  risk_level := ActionRisk.medium
  warning_ar := "ℹ️ ملاحظة: سيصبح المستودع مرئياً للجميع. تأكد من عدم وجود بيانات حساسة."
  warning_en := "ℹ️ Note: The repository will be visible to everyone. Ensure no sensitive data is present."

/-- Seed action `azure_delete_resource` from `ConsentManager.ACTIONS`. -/
def azure_delete_resource : Action where
  name := "azure_delete_resource"
  description := "Delete Azure resource"
  risk_level := ActionRisk.high
  warning_ar := "⚠️ تحذير: سيتم حذف المورد من Azure. قد يؤثر هذا على الخدمات المرتبطة."
  warning_en := "⚠️ Warning: This will delete the resource from Azure. This may affect connected services."

/-- Seed action `azure_modify_permissions` from `ConsentManager.ACTIONS`. -/
def azure_modify_permissions : Action where
  name := "azure_modify_permissions"
  description := "Modify Azure resource permissions"
  risk_level := ActionRisk.medium
  warning_ar := "ℹ️ تنبيه: سيتم تعديل صلاحيات الوصول. تأكد من أنك تعرف ما تفعل."
  warning_en := "ℹ️ Notice: Access permissions will be modified. Make sure you know what you're doing."

/-- Seed action `delete_file` from `ConsentManager.ACTIONS`. -/
def delete_file : Action where
  name := "delete_file"
  description := "Delete a file"
  risk_level := ActionRisk.low
  warning_ar := "ℹ️ سيتم حذف الملف. هل تريد المتابعة؟"
  warning_en := "ℹ️ The file will be deleted. Do you want to continue?"

/-- Seed action `clear_history` from `ConsentManager.ACTIONS`. -/
def clear_history : Action where
  name := "clear_history"
  description := "Clear conversation history"
  risk_level := ActionRisk.low
  warning_ar := "ℹ️ سيتم حذف سجل المحادثات. لا يمكن استرجاعه."
  warning_en := "ℹ️ Conversation history will be cleared. This cannot be recovered."

/-- The built-in registry `ConsentManager.ACTIONS`, in source order. -/
def seedACTIONS : Dict :=
  [ ("github_delete_repo", github_delete_repo),
    ("github_force_push", github_force_push),
    ("github_make_public", github_make_public),
    ("azure_delete_resource", azure_delete_resource),
    ("azure_modify_permissions", azure_modify_permissions),
    ("delete_file", delete_file),
    ("clear_history", clear_history) ]

/-- State of a `ConsentManager` instance: the registry, the optional
confirmation callback `(prompt, language) → bool`, and the policy flag. -/
structure ConsentManager where
  ACTIONS : Dict
  callback : Option (String → String → Bool)
  auto_approve_safe : Bool

/-- `ConsentManager.__init__`: stores the callback; `auto_approve_safe`
defaults to `True`; the registry starts as the built-in `ACTIONS` set. -/
def ConsentManager.init (callback : Option (String → String → Bool)) :
    ConsentManager where
  ACTIONS := seedACTIONS
  callback := callback
  auto_approve_safe := true

/-- `ConsentManager.requires_consent`, state-passing form.  Unknown actions
are considered safe; otherwise a Safe-risk action is exempt exactly when
`auto_approve_safe` holds. -/
def ConsentManager.requires_consentS (m : ConsentManager) (action_name : String) :
    Bool × ConsentManager :=
  match dictGet m.ACTIONS action_name with
  | none => (false, m)
  | some action =>
      if m.auto_approve_safe = true ∧ action.risk_level = ActionRisk.safe then
        (false, m)
      else
        (true, m)

/-- Value of `ConsentManager.requires_consent`. -/
def ConsentManager.requires_consent (m : ConsentManager) (action_name : String) : Bool :=
  (m.requires_consentS action_name).1

/-- `ConsentManager.get_action_risk`: risk level of an action, `SAFE` when
unknown. -/
def ConsentManager.get_action_risk (m : ConsentManager) (action_name : String) :
    ActionRisk :=
  match dictGet m.ACTIONS action_name with
  | some action => action.risk_level
  | none => ActionRisk.safe

/-- `ConsentManager.get_warning`, state-passing form: empty string for
unknown actions, otherwise `Action.get_warning`. -/
def ConsentManager.get_warningS (m : ConsentManager) (action_name : String)
    (language : String) : String × ConsentManager :=
  match dictGet m.ACTIONS action_name with
  | none => ("", m)
  | some action => (action.get_warning language, m)

/-- Value of `ConsentManager.get_warning`. -/
def ConsentManager.get_warning (m : ConsentManager) (action_name : String)
    (language : String) : String :=
  (m.get_warningS action_name language).1

/-- `ConsentManager.request_consent`, state-passing form.  The first
component pairs the returned boolean with the trace of callback
invocations: each invocation is recorded as the `(warning, language)`
argument pair handed to the channel. -/
def ConsentManager.request_consentS (m : ConsentManager) (action_name : String)
    (language : String) : (Bool × List (String × String)) × ConsentManager :=
  let r1 := m.requires_consentS action_name
  if !r1.1 then
    ((true, []), r1.2)
  else
    let r2 := r1.2.get_warningS action_name language
    match r2.2.callback with
    | none => ((false, []), r2.2)
    | some cb => ((cb r2.1 language, [(r2.1, language)]), r2.2)

/-- Value of `ConsentManager.request_consent`: returned boolean plus the
trace of channel invocations. -/
def ConsentManager.request_consent (m : ConsentManager) (action_name : String)
    (language : String) : Bool × List (String × String) :=
  (m.request_consentS action_name language).1

/-- `ConsentManager.register_action`: `self.ACTIONS[action.name] = action`. -/
def ConsentManager.register_action (m : ConsentManager) (action : Action) :
    ConsentManager :=
  { m with ACTIONS := dictSet m.ACTIONS action.name action }

/-- Helper `create_calm_warning`: icon chosen by risk level, prefixed to
both detail strings. -/
def create_calm_warning (action : String) (risk_level : ActionRisk)
    (details_ar : String) (details_en : String) : String × String :=
  let icon :=
    match risk_level with
    | ActionRisk.safe => "✓"
    | ActionRisk.low => "ℹ️"
    | ActionRisk.medium => "⚠️"
    | ActionRisk.high => "⚠️"
    | ActionRisk.critical => "🛑"
  let warning_ar := icon ++ " " ++ details_ar
  let warning_en := icon ++ " " ++ details_en
  (warning_ar, warning_en)

/-- Running `request_consent` twice in sequence on the same manager; the
method mutates nothing, so the second call starts from the same state. -/
def request_consent_twice (m : ConsentManager) (action_name : String)
    (language : String) : Bool × Bool :=
  let first := (m.request_consent action_name language).1
  let second := (m.request_consent action_name language).1
  (first, second)

/-- Test fixture: a registered Safe-risk action (the seed set has none). -/
def safe_test_action : Action where
  name := "noop"
  description := "A harmless no-op action"
  risk_level := ActionRisk.safe
  warning_ar := "لا شيء"
  warning_en := "nothing"

/-- Test fixture: a definition with an empty id and empty warning text. -/
def empty_id_action : Action where
  name := ""
  description := ""
  risk_level := ActionRisk.critical
  warning_ar := ""
  warning_en := ""

/-! ## Helper lemmas -/

/-- `requires_consentS` returns the manager unchanged. -/
lemma requires_consentS_snd (m : ConsentManager) (a : String) :
    (m.requires_consentS a).2 = m := by
  unfold ConsentManager.requires_consentS
  cases dictGet m.ACTIONS a with
  | none => rfl
  | some act =>
      by_cases h : m.auto_approve_safe = true ∧ act.risk_level = ActionRisk.safe <;>
        simp [h]

/-- `get_warningS` returns the manager unchanged. -/
lemma get_warningS_snd (m : ConsentManager) (a l : String) :
    (m.get_warningS a l).2 = m := by
  unfold ConsentManager.get_warningS
  cases dictGet m.ACTIONS a <;> rfl

/-- `requires_consentS` as value plus unchanged state. -/
lemma requires_consentS_eq (m : ConsentManager) (a : String) :
    m.requires_consentS a = (m.requires_consent a, m) := by
  calc m.requires_consentS a
      = ((m.requires_consentS a).1, (m.requires_consentS a).2) := Prod.mk.eta.symm
    _ = (m.requires_consent a, m) := by rw [requires_consentS_snd]; rfl

/-- `get_warningS` as value plus unchanged state. -/
lemma get_warningS_eq (m : ConsentManager) (a l : String) :
    m.get_warningS a l = (m.get_warning a l, m) := by
  calc m.get_warningS a l
      = ((m.get_warningS a l).1, (m.get_warningS a l).2) := Prod.mk.eta.symm
    _ = (m.get_warning a l, m) := by rw [get_warningS_snd]; rfl

/-- Unfolding of `request_consent` in terms of the decision point, the
rendered warning and the callback. -/
lemma request_consent_eq (m : ConsentManager) (a l : String) :
    m.request_consent a l =
      if m.requires_consent a then
        match m.callback with
        | none => (false, [])
        | some cb => (cb (m.get_warning a l) l, [(m.get_warning a l, l)])
      else (true, []) := by
  unfold ConsentManager.request_consent ConsentManager.request_consentS
  simp only [requires_consentS_eq, get_warningS_eq]
  cases h : m.requires_consent a with
  | false => simp
  | true => cases m.callback <;> simp

/-- Looking up the key just set by `dictSet` yields the new value. -/
lemma dictGet_dictSet_self (d : Dict) (k : String) (v : Action) :
    dictGet (dictSet d k v) k = some v := by
  induction d with
  | nil => simp [dictSet, dictGet]
  | cons p t ih =>
      obtain ⟨q, w⟩ := p
      by_cases h : q = k
      · simp [dictSet, h, dictGet]
      · simp [dictSet, h, dictGet, ih]

/-- A string starting with a non-empty prefix has positive length. -/
lemma length_append_pos (a b : String) (ha : 0 < a.length) :
    0 < (a ++ b).length := by
  rw [String.length_append]
  omega

/-! ## Claims -/

/-- C1: with no confirmation channel configured, `request` returns false for
every action requiring confirmation, and for every action not requiring
confirmation it returns true regardless of the channel. -/
theorem consent_C1 (m : ConsentManager) (a l : String) :
    (m.callback = none → m.requires_consent a = true →
      (m.request_consent a l).1 = false) ∧
    (m.requires_consent a = false → (m.request_consent a l).1 = true) := by
  constructor
  · intro hcb hreq
    simp [request_consent_eq, hcb, hreq]
  · intro hreq
    simp [request_consent_eq, hreq]

/-- Witness for C1 at the built-in Critical action and at an unregistered
action, both on a manager with no channel. -/
theorem consent_C1_witness :
    ((ConsentManager.init none).request_consent "github_delete_repo" "ar").1 = false ∧
    ((ConsentManager.init none).request_consent "unregistered_action" "en").1 = true :=
  ⟨(consent_C1 (ConsentManager.init none) "github_delete_repo" "ar").1 rfl (by decide),
   (consent_C1 (ConsentManager.init none) "unregistered_action" "en").2 (by decide)⟩

/-- C2: an action id absent from the registry never requires confirmation,
has risk Safe, and renders the empty warning in every language. -/
theorem consent_C2 (m : ConsentManager) (a l : String)
    (h : dictGet m.ACTIONS a = none) :
    m.requires_consent a = false ∧
    m.get_action_risk a = ActionRisk.safe ∧
    m.get_warning a l = "" := by
  refine ⟨?_, ?_, ?_⟩ <;>
    simp [ConsentManager.requires_consent, ConsentManager.requires_consentS,
      ConsentManager.get_action_risk, ConsentManager.get_warning,
      ConsentManager.get_warningS, h]

/-- Witness for C2 at an id absent from the seed registry. -/
theorem consent_C2_witness :
    (ConsentManager.init none).requires_consent "unregistered_action" = false ∧
    (ConsentManager.init none).get_action_risk "unregistered_action" = ActionRisk.safe ∧
    (ConsentManager.init none).get_warning "unregistered_action" "ar" = "" :=
  consent_C2 (ConsentManager.init none) "unregistered_action" "ar" (by decide)

/-- C3: a registered Safe action requires confirmation exactly when
`auto_approve_safe` is off; a registered non-Safe action always requires
confirmation. -/
theorem consent_C3 (m : ConsentManager) (a : String) (act : Action)
    (h : dictGet m.ACTIONS a = some act) :
    (act.risk_level = ActionRisk.safe →
      m.requires_consent a = !m.auto_approve_safe) ∧
    (act.risk_level ≠ ActionRisk.safe → m.requires_consent a = true) := by
  constructor
  · intro hs
    cases hb : m.auto_approve_safe <;>
      simp [ConsentManager.requires_consent, ConsentManager.requires_consentS,
        h, hs, hb]
  · intro hs
    cases hb : m.auto_approve_safe <;>
      simp [ConsentManager.requires_consent, ConsentManager.requires_consentS,
        h, hs, hb]

/-- Witness for C3: a freshly registered Safe action is auto-approved under
the default config, while the built-in Critical action requires consent. -/
theorem consent_C3_witness :
    ((ConsentManager.init none).register_action safe_test_action).requires_consent
        "noop" = false ∧
    (ConsentManager.init none).requires_consent "github_delete_repo" = true :=
  ⟨(consent_C3 ((ConsentManager.init none).register_action safe_test_action)
      "noop" safe_test_action (by decide)).1 rfl,
   (consent_C3 (ConsentManager.init none) "github_delete_repo" github_delete_repo
      (by decide)).2 (by decide)⟩

/-- C4 counterexample: for the registered action `github_delete_repo` and
the unsupported tag "fr", the rendered warning is the English text, not the
Arabic (primary) text the claim requires as fallback. -/
theorem consent_C4_counterexample :
    dictGet (ConsentManager.init none).ACTIONS "github_delete_repo" =
      some github_delete_repo ∧
    (ConsentManager.init none).get_warning "github_delete_repo" "fr" ≠
      github_delete_repo.warning_ar ∧
    (ConsentManager.init none).get_warning "github_delete_repo" "fr" =
      github_delete_repo.warning_en :=
  ⟨by decide, by decide, by decide⟩

/-- C4 (amended): for every registered action, `warning_for` returns the
Arabic text exactly when the language tag is "ar", and the English
(secondary) text for every other tag, "en" included. -/
theorem consent_C4_amended (m : ConsentManager) (a l : String) (act : Action)
    (h : dictGet m.ACTIONS a = some act) :
    m.get_warning a l =
      if l = "ar" then act.warning_ar else act.warning_en := by
  simp [ConsentManager.get_warning, ConsentManager.get_warningS, h,
    Action.get_warning]

/-- Witness for the amended C4 at `github_delete_repo` with tag "fr". -/
theorem consent_C4_witness :
    (ConsentManager.init none).get_warning "github_delete_repo" "fr" =
      (if ("fr" : String) = "ar" then github_delete_repo.warning_ar
        else github_delete_repo.warning_en) :=
  consent_C4_amended (ConsentManager.init none) "github_delete_repo" "fr"
    github_delete_repo (by decide)

/-- C5: with a channel configured, a call that requires confirmation invokes
the channel exactly once with the rendered warning and the language tag and
returns exactly the channel's boolean; a call that does not require
confirmation performs no invocation and returns true. -/
theorem consent_C5 (m : ConsentManager) (a l : String)
    (cb : String → String → Bool) (hcb : m.callback = some cb) :
    (m.requires_consent a = true →
      m.request_consent a l =
        (cb (m.get_warning a l) l, [(m.get_warning a l, l)])) ∧
    (m.requires_consent a = false → m.request_consent a l = (true, [])) := by
  constructor <;> intro h <;> simp [request_consent_eq, h, hcb]

/-- Witness for C5: a constantly denying channel is invoked once with the
English warning of `github_delete_repo` and its answer is returned. -/
theorem consent_C5_witness :
    (ConsentManager.init (some fun _ _ => false)).request_consent
        "github_delete_repo" "en" =
      (false, [(github_delete_repo.warning_en, "en")]) :=
  (consent_C5 (ConsentManager.init (some fun _ _ => false))
    "github_delete_repo" "en" (fun _ _ => false) rfl).1 (by decide)

/-- C6 counterexample: registration performs no non-empty-id check — a
definition whose id is the empty string is inserted all the same, and
looking up the empty id returns it. -/
theorem consent_C6_counterexample :
    dictGet ((ConsentManager.init none).register_action empty_id_action).ACTIONS
      "" = some empty_id_action ∧
    ((ConsentManager.init none).register_action empty_id_action).ACTIONS.length = 8 :=
  ⟨by decide, by decide⟩

/-- C6 (amended): `register` inserts by id with no validation at all — for
every definition, empty id, non-Safe risk or empty warning text included,
registration succeeds and lookup returns exactly the registered definition;
a second registration under the same id replaces the first (last write
wins). -/
theorem consent_C6_amended (m : ConsentManager) (a b : Action) :
    dictGet (m.register_action a).ACTIONS a.name = some a ∧
    dictGet ((m.register_action a).register_action b).ACTIONS b.name = some b :=
  ⟨dictGet_dictSet_self m.ACTIONS a.name a,
   dictGet_dictSet_self (m.register_action a).ACTIONS b.name b⟩

/-- C7 counterexample: the built-in seed registry holds seven actions, not
six. -/
theorem consent_C7_counterexample :
    (ConsentManager.init none).ACTIONS.length = 7 ∧
    decide ((ConsentManager.init none).ACTIONS.length = 6) = false :=
  ⟨by decide, by decide⟩

/-- C7 (amended): the registry at process start holds exactly seven
built-in seed actions; none has risk Safe and every non-Safe risk level is
represented; every seed action has non-empty warning text in both
languages; `risk_of("github_delete_repo")` is Critical and
`requires_confirmation("github_delete_repo")` is true. -/
theorem consent_C7_amended :
    (ConsentManager.init none).ACTIONS.length = 7 ∧
    ((ConsentManager.init none).ACTIONS.all fun p =>
      !(p.2.risk_level == ActionRisk.safe) &&
      decide (0 < p.2.warning_ar.length) &&
      decide (0 < p.2.warning_en.length)) = true ∧
    ((ConsentManager.init none).ACTIONS.any fun p =>
      p.2.risk_level == ActionRisk.low) = true ∧
    ((ConsentManager.init none).ACTIONS.any fun p =>
      p.2.risk_level == ActionRisk.medium) = true ∧
    ((ConsentManager.init none).ACTIONS.any fun p =>
      p.2.risk_level == ActionRisk.high) = true ∧
    ((ConsentManager.init none).ACTIONS.any fun p =>
      p.2.risk_level == ActionRisk.critical) = true ∧
    (ConsentManager.init none).get_action_risk "github_delete_repo" =
      ActionRisk.critical ∧
    (ConsentManager.init none).requires_consent "github_delete_repo" = true := by
  refine ⟨by decide, by decide, by decide, by decide, by decide, by decide,
    by decide, by decide⟩

/-- A constantly-answering channel: `request` returns true unless the action
requires confirmation and the constant answer is false. -/
lemma request_const_channel (m : ConsentManager) (b : Bool) (a l : String)
    (hcb : m.callback = some fun _ _ => b) :
    (m.request_consent a l).1 = (!m.requires_consent a || b) := by
  rw [request_consent_eq]
  cases h : m.requires_consent a <;> simp [h, hcb]

/-- Two consecutive calls with a constantly-answering channel yield the same
pair of answers. -/
lemma request_consent_twice_const (m : ConsentManager) (b : Bool) (a l : String)
    (hcb : m.callback = some fun _ _ => b) :
    request_consent_twice m a l =
      (!m.requires_consent a || b, !m.requires_consent a || b) := by
  unfold request_consent_twice
  rw [request_const_channel m b a l hcb]

/-- C8 counterexample: with a channel that constantly returns false, two
consecutive `request` calls for the unregistered action both return true,
not false as the claim states for every action id. -/
theorem consent_C8_counterexample :
    request_consent_twice
      { ACTIONS := seedACTIONS, callback := some fun _ _ => false,
        auto_approve_safe := true } "unregistered_action" "ar" = (true, true) ∧
    decide (request_consent_twice
      { ACTIONS := seedACTIONS, callback := some fun _ _ => false,
        auto_approve_safe := true } "unregistered_action" "ar" =
        (false, false)) = false :=
  ⟨by decide, by decide⟩

/-- C8 (amended): two consecutive `request` calls with a constantly-true
channel both return true; with a constantly-false channel both calls return
the same value — false when the action requires confirmation under the
config, true when it does not.  Nothing is cached: each call is the same
function of the registry, the config and the channel's answer. -/
theorem consent_C8_amended (reg : Dict) (auto : Bool) (a l : String) :
    request_consent_twice
      { ACTIONS := reg, callback := some fun _ _ => true,
        auto_approve_safe := auto } a l = (true, true) ∧
    request_consent_twice
      { ACTIONS := reg, callback := some fun _ _ => false,
        auto_approve_safe := auto } a l =
      (!({ ACTIONS := reg, callback := some fun _ _ => false,
            auto_approve_safe := auto } : ConsentManager).requires_consent a,
       !({ ACTIONS := reg, callback := some fun _ _ => false,
            auto_approve_safe := auto } : ConsentManager).requires_consent a) := by
  constructor
  · rw [request_consent_twice_const _ true a l rfl]
    simp
  · rw [request_consent_twice_const _ false a l rfl]
    simp

/-- C9: the decision and rendering functions mutate nothing — their
state-passing forms return the manager unchanged — and their values do not
depend on the callback (`requires_confirmation`) nor on the callback or the
policy flag (`warning_for`): they are functions of the registry, the action
id and the config alone. -/
theorem consent_C9 (reg : Dict) (cb1 cb2 : Option (String → String → Bool))
    (b1 b2 : Bool) (a l : String) :
    (({ ACTIONS := reg, callback := cb1, auto_approve_safe := b1 } :
        ConsentManager).requires_consentS a).2 =
      { ACTIONS := reg, callback := cb1, auto_approve_safe := b1 } ∧
    (({ ACTIONS := reg, callback := cb1, auto_approve_safe := b1 } :
        ConsentManager).get_warningS a l).2 =
      { ACTIONS := reg, callback := cb1, auto_approve_safe := b1 } ∧
    ({ ACTIONS := reg, callback := cb1, auto_approve_safe := b1 } :
        ConsentManager).requires_consent a =
      ({ ACTIONS := reg, callback := cb2, auto_approve_safe := b1 } :
        ConsentManager).requires_consent a ∧
    ({ ACTIONS := reg, callback := cb1, auto_approve_safe := b1 } :
        ConsentManager).get_warning a l =
      ({ ACTIONS := reg, callback := cb2, auto_approve_safe := b2 } :
        ConsentManager).get_warning a l := by
  refine ⟨requires_consentS_snd _ _, get_warningS_snd _ _ _, ?_, ?_⟩
  · cases h : dictGet reg a with
    | none =>
        simp [ConsentManager.requires_consent, ConsentManager.requires_consentS, h]
    | some act =>
        by_cases hc : b1 = true ∧ act.risk_level = ActionRisk.safe <;>
          simp [ConsentManager.requires_consent, ConsentManager.requires_consentS,
            h, hc]
  · cases h : dictGet reg a <;>
      simp [ConsentManager.get_warning, ConsentManager.get_warningS, h]

/-- C10: `create_calm_warning` pairs the risk icon with each detail string,
Arabic first then English — check mark for Safe, info for Low, warning sign
for Medium and High, stop sign for Critical — and both rendered warnings
are non-empty for every risk level. -/
theorem consent_C10 (action details_ar details_en : String) :
    create_calm_warning action ActionRisk.safe details_ar details_en =
      ("✓" ++ " " ++ details_ar, "✓" ++ " " ++ details_en) ∧
    create_calm_warning action ActionRisk.low details_ar details_en =
      ("ℹ️" ++ " " ++ details_ar, "ℹ️" ++ " " ++ details_en) ∧
    create_calm_warning action ActionRisk.medium details_ar details_en =
      ("⚠️" ++ " " ++ details_ar, "⚠️" ++ " " ++ details_en) ∧
    create_calm_warning action ActionRisk.high details_ar details_en =
      ("⚠️" ++ " " ++ details_ar, "⚠️" ++ " " ++ details_en) ∧
    create_calm_warning action ActionRisk.critical details_ar details_en =
      ("🛑" ++ " " ++ details_ar, "🛑" ++ " " ++ details_en) ∧
    ∀ r : ActionRisk,
      0 < (create_calm_warning action r details_ar details_en).1.length ∧
      0 < (create_calm_warning action r details_ar details_en).2.length := by
  refine ⟨rfl, rfl, rfl, rfl, rfl, ?_⟩
  intro r
  cases r <;>
    exact ⟨length_append_pos _ _ (by decide), length_append_pos _ _ (by decide)⟩

end Haven
